import Mathlib

/-!
Shallow embedding of the TectonicDB client (src/src/tectonic.ts).

The client is a single-connection, queue-serialised command client.  Its
mutable state consists of the FIFO send queue (socketSendQueue), the single
activeQuery slot, the initialized flag set by the connect callback, and
whether the socket has been destroyed.  All behaviour is driven by five
events: a caller submitting a command (cmd), the connect callback firing,
a data event on the socket, a socket error event, and a socket close
event.  Observable effects are socket writes, promise resolutions
(activeQuery.cb), promise rejections (activeQuery.onError) and destroying
the socket.  The step function below is a line-by-line translation of the
event handlers in tectonic.ts.
-/

/-- One record persisted to the store (the DBUpdate fields destructured by
tectonic.ts: timestamp, seq, is_trade, is_bid, price, size).  The numeric
fields are JS numbers; they are modelled as rationals together with the
rendering function jsNumToString below, which matches JS number-to-string
conversion on all finite-decimal values (the only values the repository
uses). -/
structure DBUpdate where
  timestamp : ℚ
  seq : ℚ
  is_trade : Bool
  is_bid : Bool
  price : ℚ
  size : ℚ
deriving DecidableEq

/-- Left-pad a digit string with zeros to width k (used to render the
fractional part of a decimal number). -/
def padLeftZeros (s : String) (k : ℕ) : String :=
  if s.length ≥ k then s else String.mk (List.replicate (k - s.length) '0') ++ s

/-- The least number of decimal digits after the point needed to write q
exactly: the least k with q.den dividing 10 to the k (searched up to 20,
enough for every value in the repository; rationals are stored reduced,
so divisibility of the denominator is exactly decimal representability). -/
def decExponent (q : ℚ) : ℕ :=
  (((List.range 21).find? (fun k => (10 ^ k) % q.den = 0)).getD 0)

/-- JS number-to-string conversion, restricted to numbers with a finite
decimal expansion: integers render with no point, other values render as
sign, integer part, point, fractional digits with no trailing zeros.  This
agrees with the ECMAScript shortest-round-trip rendering on every literal
appearing in the repository and its spec (100 to "100", 0 to "0",
0.1 to "0.1"). -/
def jsNumToString (q : ℚ) : String :=
  if q.den = 1 then toString q.num
  else
    let k := decExponent q
    let m := q.num.natAbs * ((10 ^ k) / q.den)
    let sign := if q.num < 0 then "-" else ""
    sign ++ toString (m / 10 ^ k) ++ "." ++ padLeftZeros (toString (m % 10 ^ k)) k

/-- The t / f rendering of a boolean field used by the ADD and BULKADD row
templates. -/
def boolTF (b : Bool) : String := if b then "t" else "f"

/-- The command text built by add (tectonic.ts line 83):
ADD timestamp, seq, t|f, t|f, price, size; -/
def addCmd (u : DBUpdate) : String :=
  "ADD " ++ jsNumToString u.timestamp ++ ", " ++ jsNumToString u.seq ++ ", " ++
    boolTF u.is_trade ++ ", " ++ boolTF u.is_bid ++ ", " ++
    jsNumToString u.price ++ ", " ++ jsNumToString u.size ++ ";"

/-- The row command text built inside the bulkadd and bulkadd_into loops
(tectonic.ts lines 89 and 97): the add template without the ADD verb. -/
def rowCmd (u : DBUpdate) : String :=
  jsNumToString u.timestamp ++ ", " ++ jsNumToString u.seq ++ ", " ++
    boolTF u.is_trade ++ ", " ++ boolTF u.is_bid ++ ", " ++
    jsNumToString u.price ++ ", " ++ jsNumToString u.size ++ ";"

/-- The ordered list of command texts submitted by bulkadd(updates)
(tectonic.ts lines 86 to 92): the BULKADD opener, one row per record in
order, then the DDAKLUB terminator.  bulkadd awaits each cmd before
issuing the next. -/
def bulkaddCmds (updates : List DBUpdate) : List String :=
  "BULKADD" :: (updates.map rowCmd ++ ["DDAKLUB"])

/-- The ordered list of command texts submitted by
bulkadd_into(updates, db) (tectonic.ts lines 94 to 100). -/
def bulkaddIntoCmds (updates : List DBUpdate) (db : String) : List String :=
  ("BULKADD INTO " ++ db) :: (updates.map rowCmd ++ ["DDAKLUB"])

/-- The response structure delivered to a pending query: success flag and
textual payload (interface TectonicResponse). -/
structure TectonicResponse where
  success : Bool
  data : String
deriving DecidableEq

/-- A pending query.  The message is the command text; qid identifies the
submitting caller, standing for the resolve / reject pair captured in the
SocketQuery closure so that deliveries can be attributed to callers. -/
structure SocketQuery where
  message : String
  qid : ℕ
deriving DecidableEq

/-- The mutable state of a TectonicDB instance: the FIFO socketSendQueue,
the single activeQuery slot, the initialized flag (named inited here) and
whether socket.destroy() has been called. -/
structure ClientState where
  socketSendQueue : List SocketQuery
  activeQuery : Option SocketQuery
  inited : Bool
  destroyed : Bool
deriving DecidableEq

/-- The state right after the constructor and init() run: empty queue, no
active query, not initialized (tectonic.ts lines 29 to 41). -/
def initState : ClientState := ⟨[], none, false, false⟩

/-- The state of a connected, idle client: empty queue, no active query,
initialized. -/
def connectedIdleState : ClientState := ⟨[], none, true, false⟩

/-- The events driving the client: cmd(message) by a caller, the connect
callback, a data event with the raw bytes, an error event, close. -/
inductive SocketEvent where
  | submit (q : SocketQuery)
  | connected
  | data (bytes : List ℕ)
  | socketErr (e : ℕ)
  | closed
deriving DecidableEq

/-- The observable effects of the client: socket.write of a string,
resolving the promise of the caller qid with a response, rejecting the
promise of the caller qid with an error, socket.destroy(). -/
inductive SocketOutput where
  | write (s : String)
  | resolve (qid : ℕ) (r : TectonicResponse)
  | reject (qid : ℕ) (e : ℕ)
  | destroy
deriving DecidableEq

/-- String.fromCharCode applied to each byte of a buffer (tectonic.ts
line 156).  data.toString() on line 165 is modelled by the same function:
the two agree on every ASCII buffer, which covers the exit sentinel the
code looks for. -/
def bytesAsString (l : List ℕ) : String := String.mk (l.map Char.ofNat)

/-- Whether t is a suffix of s, computed on the underlying character
lists.  This is extensionally the endsWith test of the source (line 165)
and, unlike the library routine working on byte positions, it evaluates
inside the kernel. -/
def strEndsWith (s t : String) : Bool := t.data.isSuffixOf s.data

/-- sendSocketMsg (tectonic.ts lines 179 to 181): write the message with a
single newline appended. -/
def sendSocketMsg (msg : String) : SocketOutput :=
  SocketOutput.write (msg ++ "\n")

/-- Decoding of one inbound buffer, exactly as handleSocketData does it
(tectonic.ts lines 154 to 157): success is whether byte 0 equals 1; the
length is the byte at offset 8 (data.subarray(8,9) viewed element-wise as
a Uint32Array); the payload is bytes 9 to len+12 exclusive, clamped to the
buffer, each byte read as one character code. -/
def frameDecode (bytes : List ℕ) : TectonicResponse :=
  let success := bytes.getD 0 0 == 1
  let len := bytes.getD 8 0
  let dataBody := bytesAsString ((bytes.drop 9).take (len + 12 - 9))
  ⟨success, dataBody⟩

/-- One transition of the client.  Each branch is the translation of the
corresponding handler in tectonic.ts:
submit is cmd (lines 183 to 203), whose send-now condition is
activeQuery empty OR not initialized;
connected is the socket.connect callback (lines 43 to 53);
data is handleSocketData (lines 151 to 177), which delivers the decoded
frame to the active query, destroys the socket when the rendered buffer
ends with exit, and then shifts the queue head into the activeQuery slot
without writing it;
socketErr is the error listener (lines 62 to 66);
closed is the close listener (lines 55 to 57), which only logs. -/
def step (s : ClientState) (e : SocketEvent) : ClientState × List SocketOutput :=
  match e with
  | .submit q =>
      if s.activeQuery.isNone || !s.inited then
        (⟨s.socketSendQueue, some q, s.inited, s.destroyed⟩, [sendSocketMsg q.message])
      else
        (⟨s.socketSendQueue ++ [q], s.activeQuery, s.inited, s.destroyed⟩, [])
  | .connected =>
      match s.socketSendQueue with
      | [] => (⟨[], s.activeQuery, true, s.destroyed⟩, [])
      | q :: rest =>
          (⟨rest, some q, true, s.destroyed⟩, [sendSocketMsg q.message])
  | .data bytes =>
      let response := frameDecode bytes
      let deliver := match s.activeQuery with
        | some q => [SocketOutput.resolve q.qid response]
        | none => []
      let isExit := strEndsWith (bytesAsString bytes) "exit"
      let exitOut := if isExit then [SocketOutput.destroy] else []
      let s1 : ClientState := match s.socketSendQueue with
        | [] => ⟨[], none, s.inited, s.destroyed || isExit⟩
        | q :: rest => ⟨rest, some q, s.inited, s.destroyed || isExit⟩
      (s1, deliver ++ exitOut)
  | .socketErr err =>
      match s.activeQuery with
      | some q => (s, [SocketOutput.reject q.qid err])
      | none => (s, [])
  | .closed => (s, [])

/-- Run the client over a list of events, collecting all outputs in
order. -/
def run (s : ClientState) : List SocketEvent → ClientState × List SocketOutput
  | [] => (s, [])
  | e :: es =>
      let p := step s e
      let r := run p.1 es
      (r.1, p.2 ++ r.2)

/-- The socket writes among a list of outputs, in order. -/
def writesOf (outs : List SocketOutput) : List String :=
  outs.filterMap (fun o => match o with
    | SocketOutput.write s => some s
    | _ => none)

/-- The event sequence of a caller that awaits every command: submit one
query, receive one reply frame, then move to the next command.  This is
how bulkadd and bulkadd_into drive the client. -/
def mkEvents : List SocketQuery → List (List ℕ) → List SocketEvent
  | q :: qs, f :: fs => SocketEvent.submit q :: SocketEvent.data f :: mkEvents qs fs
  | _, _ => []

/-- The result of get(n) (tectonic.ts lines 117 to 124): parse the payload
as JSON on success, return the raw payload otherwise.  JSON.parse is a JS
builtin, not repository code, so it enters as the parameter parse. -/
def getResult {J : Type} (parse : String → J) (r : TectonicResponse) : Sum J String :=
  if r.success then Sum.inl (parse r.data) else Sum.inr r.data

/-- The result of getall() (tectonic.ts lines 107 to 115): parse the
payload as JSON on success, return null (here none) otherwise. -/
def getallResult {J : Type} (parse : String → J) (r : TectonicResponse) : Option J :=
  if r.success then some (parse r.data) else none

/-- The command text submitted by get(n) (tectonic.ts line 118). -/
def getCmdText (n : ℚ) : String := "GET " ++ jsNumToString n ++ " AS JSON"

/-- The command text submitted by getall() (tectonic.ts line 108). -/
def getallCmdText : String := "GET ALL AS JSON"

/-- A well-formed success reply carrying the payload OK: success byte 1,
seven ignored header bytes, length 2 at offset 8, then the bytes of OK. -/
def okFrame : List ℕ := [1, 0, 0, 0, 0, 0, 0, 0, 2, 79, 75]

/-- C4: a buffer whose first byte is 1, followed by the protocol header
(seven bytes the decoder skips), the length byte at offset 8 and a payload
of exactly that length, decodes to success with the payload read as text;
a buffer whose first byte is not 1 decodes with success false. -/
theorem c4_frame_decode (w payload rest : List ℕ) (len b : ℕ) :
    (w.length = 7 → payload.length = len →
      frameDecode (1 :: (w ++ len :: payload)) = ⟨true, bytesAsString payload⟩) ∧
    (b ≠ 1 → (frameDecode (b :: rest)).success = false) := by
  constructor
  · intro hw hp
    have hsplit : (1 : ℕ) :: (w ++ len :: payload) = ((1 :: w) ++ [len]) ++ payload := by
      simp
    have hlen9 : ((1 :: w) ++ [len]).length = 9 := by simp [hw]
    have hget0 : ((((1 :: w) ++ [len]) ++ payload).getD 0 0) = 1 := by
      have hc : ((1 :: w) ++ [len]) ++ payload = 1 :: ((w ++ [len]) ++ payload) := by simp
      rw [hc]; rfl
    have h8 : (8 : ℕ) < ((1 :: w) ++ [len]).length := by rw [hlen9]; omega
    have hget8 : ((((1 :: w) ++ [len]) ++ payload).getD 8 0) = len := by
      simp only [List.getD, List.get?_eq_getElem?, List.getElem?_append_left h8,
        List.getElem?_append_right (show (1 :: w).length ≤ 8 by simp [hw])]
      simp [hw]
    have hdrop : ((((1 :: w) ++ [len]) ++ payload).drop 9) = payload := by
      rw [← hlen9, List.drop_left]
    have htake : payload.take (len + 12 - 9) = payload :=
      List.take_of_length_le (by omega)
    rw [hsplit]
    simp only [frameDecode, hget0, hget8, hdrop, htake]
    rfl
  · intro hb
    simp [frameDecode, List.getD, hb]

/-- C4 witness: the instantiation at a concrete success frame carrying OK
and a concrete failure byte. -/
theorem c4_frame_decode_witness :
    frameDecode (1 :: ([0, 0, 0, 0, 0, 0, 0] ++ 2 :: [79, 75])) = ⟨true, bytesAsString [79, 75]⟩ ∧
    (frameDecode (0 :: [5])).success = false :=
  ⟨(c4_frame_decode [0, 0, 0, 0, 0, 0, 0] [79, 75] [5] 2 0).1 rfl rfl,
    (c4_frame_decode [0, 0, 0, 0, 0, 0, 0] [79, 75] [5] 2 0).2 (by decide)⟩

/-- C5 counterexample: a socket error while PING is active and INFO is
queued invokes the failure handle of PING, but PING stays in the
activeQuery slot and the queue does not advance, contradicting the claim
that the erroring query is removed from active status and the queue
continues with the next entry. -/
theorem c5_counterexample :
    (step ⟨[⟨"INFO", 1⟩], some ⟨"PING", 0⟩, true, false⟩ (.socketErr 7)).1.activeQuery =
        some ⟨"PING", 0⟩ ∧
    (step ⟨[⟨"INFO", 1⟩], some ⟨"PING", 0⟩, true, false⟩ (.socketErr 7)).1.socketSendQueue =
        [⟨"INFO", 1⟩] ∧
    (step ⟨[⟨"INFO", 1⟩], some ⟨"PING", 0⟩, true, false⟩ (.socketErr 7)).2 =
        [SocketOutput.reject 0 7] := by
  decide

/-- C5 amended: on a socket error the active query's failure handle is
invoked with the error when one is active and the error is dropped
otherwise, but the client state is completely unchanged: the query stays
active and the queue is not advanced. -/
theorem c5_error_keeps_state (s : ClientState) (err : ℕ) :
    step s (.socketErr err) = (s, match s.activeQuery with
      | some q => [SocketOutput.reject q.qid err]
      | none => []) := by
  rcases s with ⟨qu, act, i, d⟩
  cases act <;> rfl

/-- C1 counterexample: from the initial (not yet connected) state, submit
PING and then INFO.  PING is active (sent, awaiting a reply) when INFO is
submitted, yet cmd marks INFO active and writes it as well, contradicting
the claim that cmd sends only when no query is currently active. -/
theorem c1_counterexample :
    ((step initState (.submit ⟨"PING", 0⟩)).1.activeQuery = some ⟨"PING", 0⟩) ∧
    ((step (step initState (.submit ⟨"PING", 0⟩)).1 (.submit ⟨"INFO", 1⟩)).2 =
      [SocketOutput.write "INFO\n"]) ∧
    ((step (step initState (.submit ⟨"PING", 0⟩)).1 (.submit ⟨"INFO", 1⟩)).1.activeQuery =
      some ⟨"INFO", 1⟩) := by
  decide

/-- C1 amended: the activeQuery slot holds at most one query, and its
evolution is fully characterised: cmd marks the submitted query active and
writes it exactly when no query is active OR the client is not yet
initialized (overwriting a sent, still-unanswered query in the second
case), and otherwise appends to the FIFO tail; the data handler always
replaces the active query by the queue head; the connect callback pops the
queue head if any; error and close events never change the slot. -/
theorem c1_active_slot_characterization (s : ClientState) (q : SocketQuery) (err : ℕ)
    (bytes : List ℕ) :
    (step s (.submit q) =
      if s.activeQuery.isNone || !s.inited then
        (⟨s.socketSendQueue, some q, s.inited, s.destroyed⟩,
          [SocketOutput.write (q.message ++ "\n")])
      else
        (⟨s.socketSendQueue ++ [q], s.activeQuery, s.inited, s.destroyed⟩, [])) ∧
    ((step s (.data bytes)).1.activeQuery = s.socketSendQueue.head?) ∧
    ((step s .connected).1.activeQuery = (match s.socketSendQueue with
        | [] => s.activeQuery
        | qh :: _ => some qh)) ∧
    ((step s (.socketErr err)).1.activeQuery = s.activeQuery) ∧
    ((step s .closed).1.activeQuery = s.activeQuery) := by
  rcases s with ⟨qu, act, i, d⟩
  refine ⟨rfl, ?_, ?_, ?_, rfl⟩
  · cases qu <;> rfl
  · cases qu <;> rfl
  · cases act <;> rfl

/-- C3 counterexample: the initial state has not reached Connected, yet a
command submitted there is written to the socket at once, contradicting
the claim that a command submitted before the Connected transition is not
written before that transition. -/
theorem c3_counterexample :
    initState.inited = false ∧
    (step initState (.submit ⟨"PING", 0⟩)).2 = [SocketOutput.write "PING\n"] := by
  decide

/-- C2 (code bug): on an idle connected client, submit PING then INFO and
let the server answer PING.  The response completes PING and INFO becomes
the active query, but no write of INFO ever appears in the outputs: the
data handler shifts the queue without calling sendSocketMsg, so a queued
command is never written to the wire. -/
theorem c2_queued_command_never_written :
    run initState [.connected, .submit ⟨"PING", 0⟩, .submit ⟨"INFO", 1⟩, .data okFrame] =
      (⟨[], some ⟨"INFO", 1⟩, true, false⟩,
        [SocketOutput.write "PING\n", SocketOutput.resolve 0 ⟨true, "OK"⟩]) := by
  decide

/-- Helper: as long as no connected event has fired, the client stays
uninitialized and its send queue stays empty (queueing requires an active
query AND an initialized client, and nothing but connected sets the
flag). -/
theorem run_no_connected_inv (evs : List SocketEvent) :
    ∀ s : ClientState, (∀ e ∈ evs, e ≠ SocketEvent.connected) → s.inited = false →
      s.socketSendQueue = [] →
      ((run s evs).1.inited = false ∧ (run s evs).1.socketSendQueue = []) := by
  induction evs with
  | nil => intro s h hi hq; exact ⟨hi, hq⟩
  | cons e es ih =>
      intro s h hi hq
      have he : e ≠ SocketEvent.connected := h e (by simp)
      have hes : ∀ x ∈ es, x ≠ SocketEvent.connected := fun x hx => h x (by simp [hx])
      have hstep : (step s e).1.inited = false ∧ (step s e).1.socketSendQueue = [] := by
        cases e with
        | submit q =>
            rcases s with ⟨qu, act, i, d⟩
            simp at hi hq
            subst hi; subst hq
            simp [step]
        | connected => exact absurd rfl he
        | data bytes =>
            rcases s with ⟨qu, act, i, d⟩
            simp at hi hq
            subst hi; subst hq
            cases act <;> simp [step]
        | socketErr err =>
            rcases s with ⟨qu, act, i, d⟩
            cases act <;> simp_all [step]
        | closed => exact ⟨hi, hq⟩
      exact ih (step s e).1 hes hstep.1 hstep.2

/-- C3 amended: before any connected event the client is uninitialized
with a provably empty queue, and a command submitted in that situation is
written to the socket immediately at submission time, not upon the
Connected transition (the send-now condition of cmd is: no active query
OR not initialized). -/
theorem c3_pre_connect_submit_writes_immediately (evs : List SocketEvent)
    (h : ∀ e ∈ evs, e ≠ SocketEvent.connected) :
    (run initState evs).1.inited = false ∧
    (run initState evs).1.socketSendQueue = [] ∧
    ∀ q : SocketQuery,
      (step (run initState evs).1 (.submit q)).2 = [SocketOutput.write (q.message ++ "\n")] := by
  obtain ⟨h1, h2⟩ := run_no_connected_inv evs initState h rfl rfl
  refine ⟨h1, h2, fun q => ?_⟩
  have hcond : ((run initState evs).1.activeQuery.isNone || !(run initState evs).1.inited) = true := by
    rw [h1]; simp
  simp [step, hcond, sendSocketMsg]

/-- C3 witness: after one pre-connect submission the client is still
uninitialized, and a second pre-connect submission is written at once. -/
theorem c3_pre_connect_witness :
    (run initState [.submit ⟨"PING", 0⟩]).1.inited = false ∧
    (step (run initState [.submit ⟨"PING", 0⟩]).1 (.submit ⟨"INFO", 1⟩)).2 =
      [SocketOutput.write ("INFO" ++ "\n")] := by
  have h := c3_pre_connect_submit_writes_immediately [.submit ⟨"PING", 0⟩] (by decide)
  exact ⟨h.1, h.2.2 ⟨"INFO", 1⟩⟩

/-- Helper: writes distribute over output concatenation. -/
theorem writesOf_append (a b : List SocketOutput) :
    writesOf (a ++ b) = writesOf a ++ writesOf b := by
  simp [writesOf]

/-- Helper: driving a connected idle client through an awaited sequence
(submit, reply, submit, reply, ...) writes exactly the submitted command
texts, each with its newline, in submission order, and returns the client
to connected idle shape. -/
theorem run_awaited_sequence (qs : List SocketQuery) :
    ∀ (fs : List (List ℕ)) (s : ClientState),
      s.socketSendQueue = [] → s.activeQuery = none → s.inited = true →
      qs.length = fs.length →
      writesOf (run s (mkEvents qs fs)).2 = qs.map (fun q => q.message ++ "\n") ∧
      (run s (mkEvents qs fs)).1.socketSendQueue = [] ∧
      (run s (mkEvents qs fs)).1.activeQuery = none ∧
      (run s (mkEvents qs fs)).1.inited = true := by
  induction qs with
  | nil =>
      intro fs s h1 h2 h3 hl
      cases fs with
      | nil => exact ⟨by simp [mkEvents, run, writesOf], h1, h2, h3⟩
      | cons f fs => simp at hl
  | cons q qs ih =>
      intro fs s h1 h2 h3 hl
      cases fs with
      | nil => simp at hl
      | cons f fs =>
          rcases s with ⟨qu, act, i, d⟩
          simp at h1 h2 h3
          subst h1; subst h2; subst h3
          have hrest := ih fs ⟨[], none, true, d || strEndsWith (bytesAsString f) "exit"⟩
            rfl rfl rfl (by simpa using hl)
          cases hEx : strEndsWith (bytesAsString f) "exit" <;>
            rw [hEx] at hrest <;>
            simpa [run, mkEvents, step, writesOf, sendSocketMsg, hEx] using hrest

/-- C6: bulkadd submits exactly N+2 commands: the BULKADD opener (with
INTO table for bulkadd_into), one row per record built with the add
grammar minus the ADD verb, and the DDAKLUB terminator; and driving an
idle connected client through that awaited sequence writes exactly those
texts, in that order, on the wire. -/
theorem c6_bulkadd_sequence (updates : List DBUpdate) (db : String) (s : ClientState)
    (qs : List SocketQuery) (fs : List (List ℕ)) :
    (bulkaddCmds updates).length = updates.length + 2 ∧
    (bulkaddIntoCmds updates db).length = updates.length + 2 ∧
    bulkaddCmds updates = "BULKADD" :: (updates.map rowCmd ++ ["DDAKLUB"]) ∧
    bulkaddIntoCmds updates db = ("BULKADD INTO " ++ db) :: (updates.map rowCmd ++ ["DDAKLUB"]) ∧
    (∀ u : DBUpdate, addCmd u = "ADD " ++ rowCmd u) ∧
    (s.socketSendQueue = [] → s.activeQuery = none → s.inited = true →
      qs.map SocketQuery.message = bulkaddCmds updates → qs.length = fs.length →
      writesOf (run s (mkEvents qs fs)).2 = (bulkaddCmds updates).map (fun m => m ++ "\n")) := by
  refine ⟨by simp [bulkaddCmds], by simp [bulkaddIntoCmds], rfl, rfl, ?_, ?_⟩
  · intro u
    simp [addCmd, rowCmd, String.append_assoc]
  · intro h1 h2 h3 hmsg hlen
    have hw := (run_awaited_sequence qs fs s h1 h2 h3 hlen).1
    rw [hw, ← hmsg, List.map_map]
    rfl

/-- C6 witness: one record bulk-inserted on an idle connected client via
the awaited sequence writes the opener, the row and the terminator, in
order. -/
theorem c6_bulkadd_witness :
    writesOf (run connectedIdleState
        (mkEvents [⟨"BULKADD", 0⟩, ⟨"1, 2, t, f, 3, 4;", 1⟩, ⟨"DDAKLUB", 2⟩]
          [okFrame, okFrame, okFrame])).2 =
      (bulkaddCmds [⟨1, 2, true, false, 3, 4⟩]).map (fun m => m ++ "\n") :=
  (c6_bulkadd_sequence [⟨1, 2, true, false, 3, 4⟩] "test" connectedIdleState
    [⟨"BULKADD", 0⟩, ⟨"1, 2, t, f, 3, 4;", 1⟩, ⟨"DDAKLUB", 2⟩]
    [okFrame, okFrame, okFrame]).2.2.2.2.2 rfl rfl rfl (by decide) rfl

/-- C7: the end-to-end scenario: add of the record (timestamp 100, seq 0,
trade, bid, price 0.1, size 0.1) on an idle connected client writes
exactly the line ADD 100, 0, t, t, 0.1, 0.1; followed by the newline, and
the server reply frame carrying OK resolves the submitting caller with
success true and data OK, returning the client to idle. -/
theorem c7_add_end_to_end :
    addCmd ⟨100, 0, true, true, mkRat 1 10, mkRat 1 10⟩ = "ADD 100, 0, t, t, 0.1, 0.1;" ∧
    run connectedIdleState
        [.submit ⟨addCmd ⟨100, 0, true, true, mkRat 1 10, mkRat 1 10⟩, 0⟩, .data okFrame] =
      (connectedIdleState,
        [SocketOutput.write "ADD 100, 0, t, t, 0.1, 0.1;\n",
          SocketOutput.resolve 0 ⟨true, "OK"⟩]) := by
  decide

/-- C8: for every delivered response, get parses the payload when the
success flag is set and returns the raw payload otherwise, and getall
parses the payload when the success flag is set and returns null
otherwise. -/
theorem c8_get_result_branching {J : Type} (parse : String → J) (r : TectonicResponse) :
    (r.success = true → getResult parse r = Sum.inl (parse r.data) ∧
      getallResult parse r = some (parse r.data)) ∧
    (r.success = false → getResult parse r = Sum.inr r.data ∧
      getallResult parse r = none) := by
  constructor <;> intro h <;> simp [getResult, getallResult, h]

/-- C8 witness: the instantiation at a success response and at a failure
response, with the identity standing for the JSON parser. -/
theorem c8_get_result_witness :
    (getResult (fun s => s) ⟨true, "[]"⟩ = Sum.inl "[]" ∧
      getallResult (fun s => s) ⟨true, "[]"⟩ = some "[]") ∧
    (getResult (fun s => s) ⟨false, "ERR"⟩ = Sum.inr "ERR" ∧
      getallResult (fun s => s) ⟨false, "ERR"⟩ = none) :=
  ⟨(c8_get_result_branching (fun s => s) ⟨true, "[]"⟩).1 rfl,
    (c8_get_result_branching (fun s => s) ⟨false, "ERR"⟩).2 rfl⟩

/-- C9: a data event whose buffer, rendered as a string, ends with exit
destroys the socket, and does so after delivering the decoded frame to the
active query (when one exists). -/
theorem c9_exit_payload_destroys (s : ClientState) (bytes : List ℕ)
    (h : strEndsWith (bytesAsString bytes) "exit" = true) :
    (step s (.data bytes)).1.destroyed = true ∧
    (step s (.data bytes)).2 = (match s.activeQuery with
        | some q => [SocketOutput.resolve q.qid (frameDecode bytes)]
        | none => []) ++ [SocketOutput.destroy] := by
  rcases s with ⟨qu, act, i, d⟩
  cases act <;> cases qu <;> simp [step, h]

/-- C9 witness: a reply whose payload renders as exit, delivered while a
query is active, resolves that query and then destroys the socket. -/
theorem c9_exit_payload_witness :
    (step ⟨[], some ⟨"EXIT", 3⟩, true, false⟩ (.data [101, 120, 105, 116])).1.destroyed = true ∧
    (step ⟨[], some ⟨"EXIT", 3⟩, true, false⟩ (.data [101, 120, 105, 116])).2 =
      [SocketOutput.resolve 3 (frameDecode [101, 120, 105, 116])] ++ [SocketOutput.destroy] :=
  c9_exit_payload_destroys ⟨[], some ⟨"EXIT", 3⟩, true, false⟩ [101, 120, 105, 116] (by decide)

/-- C10: sendSocketMsg writes exactly the caller text with one newline
appended, and every write any event produces is of that shape: the
submitted command on an immediate send, or the queue head popped by the
connect callback; no other event writes anything. -/
theorem c10_every_write_is_message_newline (msg : String) (s : ClientState) (e : SocketEvent) :
    sendSocketMsg msg = SocketOutput.write (msg ++ "\n") ∧
    writesOf (step s e).2 = (match e with
      | SocketEvent.submit q =>
          if s.activeQuery.isNone || !s.inited then [q.message ++ "\n"] else []
      | SocketEvent.connected => (match s.socketSendQueue with
          | [] => []
          | q :: _ => [q.message ++ "\n"])
      | _ => []) := by
  refine ⟨rfl, ?_⟩
  rcases s with ⟨qu, act, i, d⟩
  cases e with
  | submit q => cases hc : (act.isNone || !i) <;> simp [step, hc, writesOf, sendSocketMsg]
  | connected => cases qu <;> simp [step, writesOf, sendSocketMsg]
  | data bytes =>
      cases act <;> cases qu <;>
        cases hEx : strEndsWith (bytesAsString bytes) "exit" <;>
        simp [step, hEx, writesOf]
  | socketErr err => cases act <;> simp [step, writesOf]
  | closed => simp [step, writesOf]
